import Mathlib

/-!
Shallow embedding of the session negotiation and message-routing core of
babel-stream-talk: src/src/utils/webrtc.ts (WebRTCManager, WebSocketManager)
and src/src/components/VideoCall.tsx (handleSignalingMessage, handleCaption,
cleanup, caption-overlay speaker filters).

Platform objects (RTCPeerConnection, MediaStream, WebSocket, JSON.parse) are
modelled at their interface boundary: the peer connection records the
descriptions and candidates handed to it and hands back fresh opaque blobs,
a media stream is a list of tracks, a websocket records its ready state and
the frames transmitted through it, and JSON.parse either yields the typed
message or throws.
-/

/-- Opaque negotiation blob / candidate descriptor (SDP payloads are opaque
to the code under verification). -/
abbrev Blob := Nat

/-- The `type` field of SignalingMessage in webrtc.ts. -/
inductive MsgType
  | offer
  | answer
  | iceCandidate
  | joinRoom
  | peerJoined
  | peerLeft
deriving DecidableEq, Repr

/-- SignalingMessage from webrtc.ts: `{ type, roomId, data? }`. -/
structure SignalingMessage where
  type : MsgType
  roomId : String
  data : Option Blob := none
deriving DecidableEq, Repr

/-- CaptionMessage from webrtc.ts. -/
structure CaptionMessage where
  speaker : String
  text : String
  translation : String
  timestamp : Nat
  language : String
deriving DecidableEq, Repr

/-- Interface model of the platform RTCPeerConnection: it records the local
and remote descriptions set on it and the candidates added to it, and
generates fresh opaque blobs (the `nextBlob` counter) for createOffer and
createAnswer. -/
structure RTCPeerConnection where
  localDescription : Option Blob := none
  remoteDescription : Option Blob := none
  appliedCandidates : List Blob := []
  nextBlob : Blob := 0
deriving DecidableEq, Repr

/-- Interface model of a platform MediaStream track. -/
structure MediaTrack where
  isAudio : Bool
  enabled : Bool := true
  stopped : Bool := false
deriving DecidableEq, Repr

/-- Interface model of a platform MediaStream. -/
structure MediaStream where
  tracks : List MediaTrack
deriving DecidableEq, Repr

/-- WebRTCManager from webrtc.ts: the two nullable handles. -/
structure WebRTCManager where
  peerConnection : Option RTCPeerConnection := none
  localStream : Option MediaStream := none
deriving DecidableEq, Repr

/-- WebRTCManager.createPeerConnection: installs a fresh platform connection
(callback registration and track attachment are platform wiring with no
state observable by the claims). -/
def WebRTCManager.createPeerConnection (m : WebRTCManager) : WebRTCManager :=
  { m with peerConnection := some {} }

/-- WebRTCManager.createOffer: throws if the handle is null, otherwise asks
the platform for an offer blob and sets it as the local description. -/
def WebRTCManager.createOffer (m : WebRTCManager) :
    Except String (Blob × WebRTCManager) :=
  match m.peerConnection with
  | none => .error "Peer connection not initialized"
  | some pc =>
      let offer := pc.nextBlob
      let pc1 := { pc with nextBlob := pc.nextBlob + 1, localDescription := some offer }
      .ok (offer, { m with peerConnection := some pc1 })

/-- WebRTCManager.createAnswer: throws if the handle is null, otherwise asks
the platform for an answer blob and sets it as the local description. -/
def WebRTCManager.createAnswer (m : WebRTCManager) :
    Except String (Blob × WebRTCManager) :=
  match m.peerConnection with
  | none => .error "Peer connection not initialized"
  | some pc =>
      let answer := pc.nextBlob
      let pc1 := { pc with nextBlob := pc.nextBlob + 1, localDescription := some answer }
      .ok (answer, { m with peerConnection := some pc1 })

/-- WebRTCManager.setRemoteDescription: throws if the handle is null,
otherwise records the description on the platform connection. -/
def WebRTCManager.setRemoteDescription (m : WebRTCManager) (d : Blob) :
    Except String WebRTCManager :=
  match m.peerConnection with
  | none => .error "Peer connection not initialized"
  | some pc =>
      let pc1 := { pc with remoteDescription := some d }
      .ok { m with peerConnection := some pc1 }

/-- WebRTCManager.addIceCandidate: throws if the handle is null, otherwise
passes the candidate straight to the platform connection. There is no
buffering of any kind in the source. -/
def WebRTCManager.addIceCandidate (m : WebRTCManager) (c : Blob) :
    Except String WebRTCManager :=
  match m.peerConnection with
  | none => .error "Peer connection not initialized"
  | some pc =>
      let pc1 := { pc with appliedCandidates := pc.appliedCandidates ++ [c] }
      .ok { m with peerConnection := some pc1 }

/-- Resource-release side effects emitted during teardown, in emission
order. -/
inductive TeardownEvent
  | stopTrack
  | closePeerConnection
  | closeSignalingWs
  | closeCaptionsWs
deriving DecidableEq, Repr

/-- WebRTCManager.cleanup: stops every local track, closes the peer
connection, then nulls both handles. The pair component is the ordered list
of release effects the call emits. -/
def WebRTCManager.cleanup (m : WebRTCManager) :
    WebRTCManager × List TeardownEvent :=
  let stopEvents : List TeardownEvent :=
    match m.localStream with
    | some ls => ls.tracks.map fun _ => TeardownEvent.stopTrack
    | none => []
  let closeEvents : List TeardownEvent :=
    match m.peerConnection with
    | some _ => [TeardownEvent.closePeerConnection]
    | none => []
  (⟨none, none⟩, stopEvents ++ closeEvents)

/-- WebSocket ready states, per the platform WebSocket interface. -/
inductive WsReadyState
  | connecting
  | openState
  | closing
  | closed
deriving DecidableEq, Repr

/-- Interface model of a platform WebSocket carrying frames of type α:
its ready state and the frames transmitted through it, in order. -/
structure WebSocket (α : Type) where
  readyState : WsReadyState
  sent : List α := []
deriving DecidableEq, Repr

/-- Platform WebSocket.close: a no-op on a closing or closed socket,
otherwise closes it; the Bool reports whether a close was performed. -/
def WebSocket.close {α : Type} (w : WebSocket α) : WebSocket α × Bool :=
  match w.readyState with
  | .closing => (w, false)
  | .closed => (w, false)
  | _ => ({ w with readyState := .closed }, true)

/-- WebSocketManager from webrtc.ts: the two nullable socket handles. -/
structure WebSocketManager where
  signalingWs : Option (WebSocket SignalingMessage) := none
  captionsWs : Option (WebSocket Blob) := none
deriving DecidableEq, Repr

/-- WebSocketManager.sendSignaling: transmit only when the signaling socket
exists and is OPEN; otherwise do nothing at all (no queueing, no error). -/
def WebSocketManager.sendSignaling (m : WebSocketManager)
    (msg : SignalingMessage) : WebSocketManager :=
  match m.signalingWs with
  | some w =>
      if w.readyState = .openState then
        { m with signalingWs := some { w with sent := w.sent ++ [msg] } }
      else m
  | none => m

/-- WebSocketManager.sendAudioChunk: transmit only when the captions socket
exists and is OPEN; otherwise do nothing at all. -/
def WebSocketManager.sendAudioChunk (m : WebSocketManager)
    (chunk : Blob) : WebSocketManager :=
  match m.captionsWs with
  | some w =>
      if w.readyState = .openState then
        { m with captionsWs := some { w with sent := w.sent ++ [chunk] } }
      else m
  | none => m

/-- WebSocketManager.disconnect: close both sockets via optional chaining.
The pair component is the ordered list of close effects emitted. -/
def WebSocketManager.disconnect (m : WebSocketManager) :
    WebSocketManager × List TeardownEvent :=
  let sig :=
    match m.signalingWs with
    | some w =>
        let p := w.close
        (some p.1, if p.2 then [TeardownEvent.closeSignalingWs] else [])
    | none => (none, [])
  let cap :=
    match m.captionsWs with
    | some w =>
        let p := w.close
        (some p.1, if p.2 then [TeardownEvent.closeCaptionsWs] else [])
    | none => (none, [])
  ({ signalingWs := sig.1, captionsWs := cap.1 }, sig.2 ++ cap.2)

/-- The connectionStatus state in VideoCall.tsx. -/
inductive ConnStatus
  | connecting
  | connected
  | disconnected
deriving DecidableEq, Repr

/-- The state owned by the VideoCall component: the two manager refs, the
captions list, and the connection flags. -/
structure VideoCallState where
  roomId : String
  webrtc : WebRTCManager := {}
  ws : WebSocketManager := {}
  captions : List CaptionMessage := []
  isConnected : Bool := false
  connectionStatus : ConnStatus := .connecting
deriving DecidableEq, Repr

/-- handleSignalingMessage from VideoCall.tsx: a switch on message.type
inside a try/catch that logs and swallows every error. The roomId of the
inbound message is never inspected. Errors thrown mid-branch leave the
mutations already made in place (the catch swallows them); a missing
payload on offer/answer/ice-candidate makes the platform constructor throw
before any mutation, so the state is unchanged there. -/
def handleSignalingMessage (s : VideoCallState) (msg : SignalingMessage) :
    VideoCallState :=
  match msg.type, msg.data with
  | .peerJoined, _ =>
      match s.webrtc.createOffer with
      | .error _ => s
      | .ok (offer, w1) =>
          let out : SignalingMessage := { type := .offer, roomId := s.roomId, data := some offer }
          { s with webrtc := w1, ws := s.ws.sendSignaling out }
  | .offer, some blob =>
      match s.webrtc.setRemoteDescription blob with
      | .error _ => s
      | .ok w1 =>
          match w1.createAnswer with
          | .error _ => { s with webrtc := w1 }
          | .ok (answer, w2) =>
              let out : SignalingMessage := { type := .answer, roomId := s.roomId, data := some answer }
              { s with webrtc := w2, ws := s.ws.sendSignaling out }
  | .offer, none => s
  | .answer, some blob =>
      match s.webrtc.setRemoteDescription blob with
      | .error _ => s
      | .ok w1 => { s with webrtc := w1 }
  | .answer, none => s
  | .iceCandidate, some c =>
      match s.webrtc.addIceCandidate c with
      | .error _ => s
      | .ok w1 => { s with webrtc := w1 }
  | .iceCandidate, none => s
  | .peerLeft, _ =>
      { s with isConnected := false, connectionStatus := .disconnected }
  | .joinRoom, _ => s

/-- handleCaption from VideoCall.tsx: append the event to the captions
list in receipt order. -/
def handleCaption (s : VideoCallState) (c : CaptionMessage) : VideoCallState :=
  { s with captions := s.captions ++ [c] }

/-- The local caption overlay in VideoCall.tsx: captions.filter with
speaker equal to the string You. -/
def youCaptions (s : VideoCallState) : List CaptionMessage :=
  s.captions.filter fun c => c.speaker == "You"

/-- The remote caption overlay in VideoCall.tsx: captions.filter with
speaker not equal to the string You. -/
def remoteCaptions (s : VideoCallState) : List CaptionMessage :=
  s.captions.filter fun c => c.speaker != "You"

/-- cleanup from VideoCall.tsx (also the body of endCall): webrtc cleanup,
then websocket disconnect, then reset the connection flags. The pair
component is the ordered list of resource-release effects emitted. -/
def cleanup (s : VideoCallState) : VideoCallState × List TeardownEvent :=
  let w := s.webrtc.cleanup
  let ws := s.ws.disconnect
  ({ s with webrtc := w.1, ws := ws.1,
            isConnected := false, connectionStatus := .disconnected },
   w.2 ++ ws.2)

/-- A raw inbound websocket frame as seen by JSON.parse: either well formed
data for a value of type α, or malformed text. -/
inductive Raw (α : Type)
  | wellFormed (a : α)
  | malformed (txt : String)
deriving DecidableEq, Repr

/-- Interface model of JSON.parse on a raw frame: a well formed frame
yields its value, a malformed frame throws. -/
def parseJson {α : Type} : Raw α → Except String α
  | .wellFormed a => .ok a
  | .malformed t => .error t

/-- The signaling onmessage handler installed by connectSignaling in
webrtc.ts: JSON.parse(event.data) then onMessage(message), with no
try/catch, so a parse failure escapes the handler as an uncaught
exception. -/
def signalingOnMessage (s : VideoCallState) (raw : Raw SignalingMessage) :
    Except String VideoCallState :=
  match parseJson raw with
  | .error e => .error e
  | .ok m => .ok (handleSignalingMessage s m)

/-- The captions onmessage handler installed by connectCaptions in
webrtc.ts: JSON.parse(event.data) then onCaption(caption), with no
try/catch, so a parse failure escapes the handler as an uncaught
exception. -/
def captionsOnMessage (s : VideoCallState) (raw : Raw CaptionMessage) :
    Except String VideoCallState :=
  match parseJson raw with
  | .error e => .error e
  | .ok c => .ok (handleCaption s c)

/-- The browser event loop delivering signaling frames one at a time: each
onmessage invocation is independent, and an uncaught exception from one
invocation is reported by the platform but neither closes the socket nor
stops delivery of later frames. -/
def runSignalingEvents (s : VideoCallState) :
    List (Raw SignalingMessage) → VideoCallState
  | [] => s
  | r :: rs =>
      match signalingOnMessage s r with
      | .error _ => runSignalingEvents s rs
      | .ok s1 => runSignalingEvents s1 rs

/-- Result of an operation run against a manager by a caller that catches
the exception: the manager the caller holds afterwards (the original one
when the operation threw, since the throw precedes every mutation) and the
error text if one was thrown. -/
def attemptMut (m : WebRTCManager) (r : Except String WebRTCManager) :
    WebRTCManager × Option String :=
  match r with
  | .error e => (m, some e)
  | .ok m1 => (m1, none)

/-- Same as attemptMut for the operations that also return a blob. -/
def attemptVal (m : WebRTCManager) (r : Except String (Blob × WebRTCManager)) :
    WebRTCManager × Option String :=
  match r with
  | .error e => (m, some e)
  | .ok p => (p.2, none)

/-- Whether an Except result is a success. -/
def exOk {α : Type} : Except String α → Bool
  | .ok _ => true
  | .error _ => false

/-- A freshly constructed platform peer connection: no descriptions, no
candidates. -/
def pcFresh : RTCPeerConnection := {}

/-- A manager right after createPeerConnection: connection present, no
remote description set yet. -/
def mgrFresh : WebRTCManager := { peerConnection := some pcFresh }

/-- A manager before createPeerConnection (or after cleanup): null handle. -/
def mgrNone : WebRTCManager := {}

/-- An open signaling socket with nothing sent yet. -/
def sigOpen : WebSocket SignalingMessage := { readyState := .openState }

/-- An open captions socket with nothing sent yet. -/
def capOpen : WebSocket Blob := { readyState := .openState }

/-- A controller state for room-1 with a fresh peer connection and both
sockets open. -/
def sessionState : VideoCallState :=
  { roomId := "room-1", webrtc := mgrFresh,
    ws := { signalingWs := some sigOpen, captionsWs := some capOpen } }

/-- C1: the spec claims addRemoteCandidate buffers candidates that arrive
before the remote description is set and applies them only on flush. On a
manager whose connection has no remote description, the code applies the
candidate to the platform connection immediately: there is no buffer. -/
theorem C1_counterexample :
    mgrFresh.peerConnection.map RTCPeerConnection.remoteDescription = some none ∧
    (mgrFresh.addIceCandidate 7).map
        (fun w => w.peerConnection.map RTCPeerConnection.appliedCandidates) =
      .ok (some [7]) :=
  ⟨rfl, rfl⟩

/-- C1 amended: addIceCandidate never buffers. Whenever the peer connection
exists, every candidate is handed straight to the platform connection in
receipt order, whether or not a remote description has been set; there is
no candidate buffer and no flush step anywhere in the code. -/
theorem C1_amended (m : WebRTCManager) (pc : RTCPeerConnection) (c : Blob)
    (h : m.peerConnection = some pc) :
    m.addIceCandidate c =
      .ok { m with peerConnection := some { pc with appliedCandidates := pc.appliedCandidates ++ [c] } } := by
  simp [WebRTCManager.addIceCandidate, h]

/-- C1 amended, witnessed on the fresh manager with candidate 7. -/
theorem C1_amended_witness :
    mgrFresh.addIceCandidate 7 =
      .ok { mgrFresh with peerConnection := some { pcFresh with appliedCandidates := pcFresh.appliedCandidates ++ [7] } } :=
  C1_amended mgrFresh pcFresh 7 rfl

/-- C2: the spec claims an envelope whose roomId differs from the session
room is dropped with no state change. handleSignalingMessage never inspects
roomId: an ice-candidate envelope for other-room against the room-1
session is processed and the candidate is applied, changing the state. -/
theorem C2_counterexample :
    sessionState.roomId = "room-1" ∧
    (handleSignalingMessage sessionState
        { type := .iceCandidate, roomId := "other-room", data := some 5 }).webrtc.peerConnection =
      some { pcFresh with appliedCandidates := [5] } ∧
    handleSignalingMessage sessionState
        { type := .iceCandidate, roomId := "other-room", data := some 5 } ≠ sessionState := by
  refine ⟨rfl, rfl, ?_⟩
  decide

/-- C2 amended: the handler dispatches on the envelope kind only and never
reads the envelope roomId, so an envelope for a foreign room is processed
exactly as one for the session room; no rejection or filtering exists. -/
theorem C2_amended (s : VideoCallState) (t : MsgType) (d : Option Blob)
    (r1 r2 : String) :
    handleSignalingMessage s { type := t, roomId := r1, data := d } =
      handleSignalingMessage s { type := t, roomId := r2, data := d } := by
  cases t <;> cases d <;> rfl

/-- C3: the spec claims a second createOffer without an intervening reset
fails with InvalidState. On a fresh manager the first createOffer succeeds
and the second call on the resulting manager succeeds as well: there is no
negotiation state machine, only a null check on the handle. -/
theorem C3_counterexample :
    exOk mgrFresh.createOffer = true ∧
    exOk (mgrFresh.createOffer.bind fun p => p.2.createOffer) = true :=
  ⟨rfl, rfl⟩

/-- C3 amended: createOffer fails, with the error text Peer connection not
initialized, exactly when the peer connection handle is null; whenever the
handle exists it succeeds from any state, including immediately after a
previous successful createOffer. -/
theorem C3_amended (m : WebRTCManager) :
    exOk m.createOffer = m.peerConnection.isSome ∧
    exOk (m.createOffer.bind fun p => p.2.createOffer) = m.peerConnection.isSome ∧
    (m.peerConnection = none →
      m.createOffer = .error "Peer connection not initialized") := by
  rcases m with ⟨pc, ls⟩
  cases pc <;> simp [WebRTCManager.createOffer, exOk, Except.bind]

/-- C3 amended, witnessed on the manager with a null handle. -/
theorem C3_amended_witness :
    mgrNone.createOffer = .error "Peer connection not initialized" :=
  (C3_amended mgrNone).2.2 rfl

/-- C4: the spec claims a malformed inbound payload is dropped and logged
with no fatal error surfaced. The onmessage handlers call JSON.parse with
no try/catch, so the parse failure escapes the handler as an uncaught
exception on both channels. -/
theorem C4_counterexample :
    signalingOnMessage sessionState (Raw.malformed "not json") = .error "not json" ∧
    captionsOnMessage sessionState (Raw.malformed "not json") = .error "not json" :=
  ⟨rfl, rfl⟩

/-- C4 amended: a malformed inbound payload makes JSON.parse throw out of
the onmessage handler, uncaught by the code (nothing in the code catches or
logs it); the message is not delivered and no session state changes, and
since each message event is dispatched independently by the platform, the
channel stays open and later frames are handled exactly as if the malformed
one had never arrived. -/
theorem C4_amended (s : VideoCallState) (t : String)
    (rs : List (Raw SignalingMessage)) :
    signalingOnMessage s (Raw.malformed t) = .error t ∧
    captionsOnMessage s (Raw.malformed t) = .error t ∧
    runSignalingEvents s (Raw.malformed t :: rs) = runSignalingEvents s rs :=
  ⟨rfl, rfl, rfl⟩

/-- A two-track local media stream. -/
def streamTwoTracks : MediaStream :=
  { tracks := [{ isAudio := true }, { isAudio := false }] }

/-- A controller state mid-call: local stream captured, connection present,
both sockets open. -/
def fullState : VideoCallState :=
  { roomId := "room-1",
    webrtc := { peerConnection := some pcFresh, localStream := some streamTwoTracks },
    ws := { signalingWs := some sigOpen, captionsWs := some capOpen } }

/-- C5: the spec claims teardown closes the peer session first, then both
transports, then releases local media. The code releases local media first
(track.stop inside WebRTCManager.cleanup runs before peerConnection.close),
then closes the peer connection, then closes the two sockets. -/
theorem C5_counterexample :
    (cleanup fullState).2 =
      [TeardownEvent.stopTrack, TeardownEvent.stopTrack,
       TeardownEvent.closePeerConnection, TeardownEvent.closeSignalingWs,
       TeardownEvent.closeCaptionsWs] ∧
    (cleanup fullState).2 ≠
      [TeardownEvent.closePeerConnection, TeardownEvent.closeSignalingWs,
       TeardownEvent.closeCaptionsWs, TeardownEvent.stopTrack,
       TeardownEvent.stopTrack] :=
  ⟨rfl, by decide⟩

/-- C5 amended: end() tears down in this order: stop every local media
track, then close the peer connection, then close the signaling socket,
then close the captions socket. -/
theorem C5_amended (s : VideoCallState) (ls : MediaStream)
    (pc : RTCPeerConnection) (sw : WebSocket SignalingMessage)
    (cw : WebSocket Blob)
    (h1 : s.webrtc.localStream = some ls)
    (h2 : s.webrtc.peerConnection = some pc)
    (h3 : s.ws.signalingWs = some sw) (h4 : s.ws.captionsWs = some cw)
    (h5 : sw.readyState = .openState) (h6 : cw.readyState = .openState) :
    (cleanup s).2 =
      (ls.tracks.map fun _ => TeardownEvent.stopTrack) ++
        [TeardownEvent.closePeerConnection, TeardownEvent.closeSignalingWs,
         TeardownEvent.closeCaptionsWs] := by
  simp [cleanup, WebRTCManager.cleanup, WebSocketManager.disconnect,
        WebSocket.close, h1, h2, h3, h4, h5, h6]

/-- C5 amended, witnessed on the mid-call state with two local tracks. -/
theorem C5_amended_witness :
    (cleanup fullState).2 =
      (streamTwoTracks.tracks.map fun _ => TeardownEvent.stopTrack) ++
        [TeardownEvent.closePeerConnection, TeardownEvent.closeSignalingWs,
         TeardownEvent.closeCaptionsWs] :=
  C5_amended fullState streamTwoTracks pcFresh sigOpen capOpen
    rfl rfl rfl rfl rfl rfl

/-- C6: on an inbound offer envelope, when the peer connection exists and
the signaling socket is open, the handler sets the payload as the remote
description, creates an answer recorded as the local description, and
transmits exactly one envelope: an answer carrying the created blob and the
session roomId (not the inbound roomId); the captions socket is untouched
and nothing else is sent. -/
theorem C6_offer_dispatch (s : VideoCallState) (pc : RTCPeerConnection)
    (sw : WebSocket SignalingMessage) (r : String) (blob : Blob)
    (hpc : s.webrtc.peerConnection = some pc)
    (hws : s.ws.signalingWs = some sw)
    (hopen : sw.readyState = .openState) :
    (handleSignalingMessage s { type := .offer, roomId := r, data := some blob }).webrtc.peerConnection =
      some { pc with remoteDescription := some blob,
                     localDescription := some pc.nextBlob,
                     nextBlob := pc.nextBlob + 1 } ∧
    (handleSignalingMessage s { type := .offer, roomId := r, data := some blob }).ws.signalingWs =
      some { sw with sent := sw.sent ++ [{ type := .answer, roomId := s.roomId, data := some pc.nextBlob }] } ∧
    (handleSignalingMessage s { type := .offer, roomId := r, data := some blob }).ws.captionsWs =
      s.ws.captionsWs := by
  simp [handleSignalingMessage, WebRTCManager.setRemoteDescription,
        WebRTCManager.createAnswer, WebSocketManager.sendSignaling,
        hpc, hws, hopen]

/-- C6, witnessed on the room-1 session receiving offer blob 42. -/
theorem C6_offer_dispatch_witness :
    (handleSignalingMessage sessionState { type := .offer, roomId := "room-1", data := some 42 }).webrtc.peerConnection =
      some { pcFresh with remoteDescription := some 42,
                          localDescription := some pcFresh.nextBlob,
                          nextBlob := pcFresh.nextBlob + 1 } ∧
    (handleSignalingMessage sessionState { type := .offer, roomId := "room-1", data := some 42 }).ws.signalingWs =
      some { sigOpen with sent := sigOpen.sent ++ [{ type := .answer, roomId := sessionState.roomId, data := some pcFresh.nextBlob }] } ∧
    (handleSignalingMessage sessionState { type := .offer, roomId := "room-1", data := some 42 }).ws.captionsWs =
      sessionState.ws.captionsWs :=
  C6_offer_dispatch sessionState pcFresh sigOpen "room-1" 42 rfl rfl rfl

/-- C7: teardown is idempotent. From any state, running cleanup a second
time on the state the first call produced leaves the state exactly as the
first call left it and emits no resource-release effect at all: the handles
are already null and closing a closed socket is a platform no-op. -/
theorem C7_cleanup_idempotent (s : VideoCallState) :
    cleanup (cleanup s).1 = ((cleanup s).1, ([] : List TeardownEvent)) := by
  obtain ⟨r, w, ws, caps, ic, cs⟩ := s
  obtain ⟨sws, cws⟩ := ws
  rcases sws with _ | ⟨srs, ssent⟩ <;> rcases cws with _ | ⟨crs, csent⟩
  · simp [cleanup, WebRTCManager.cleanup, WebSocketManager.disconnect,
          WebSocket.close]
  · cases crs <;>
      simp [cleanup, WebRTCManager.cleanup, WebSocketManager.disconnect,
            WebSocket.close]
  · cases srs <;>
      simp [cleanup, WebRTCManager.cleanup, WebSocketManager.disconnect,
            WebSocket.close]
  · cases srs <;> cases crs <;>
      simp [cleanup, WebRTCManager.cleanup, WebSocketManager.disconnect,
            WebSocket.close]

/-- A closed signaling socket. -/
def sigClosed : WebSocket SignalingMessage := { readyState := .closed }

/-- A socket manager whose signaling socket is closed. -/
def mgrWsClosed : WebSocketManager := { signalingWs := some sigClosed }

/-- A socket manager whose signaling socket is open. -/
def mgrWsOpen : WebSocketManager := { signalingWs := some sigOpen }

/-- A join-room envelope for room-1. -/
def msgJoin : SignalingMessage := { type := .joinRoom, roomId := "room-1" }

/-- C8: sendSignaling transmits the envelope exactly when the signaling
socket exists and is OPEN; in every other case the manager is left exactly
as it was, so the envelope is neither transmitted nor queued and no error
is raised (the function is total). -/
theorem C8_send_drop_or_transmit (m : WebSocketManager)
    (msg : SignalingMessage) :
    (m.signalingWs = none → m.sendSignaling msg = m) ∧
    (∀ w, m.signalingWs = some w → w.readyState ≠ .openState →
      m.sendSignaling msg = m) ∧
    (∀ w, m.signalingWs = some w → w.readyState = .openState →
      m.sendSignaling msg = { m with signalingWs := some { w with sent := w.sent ++ [msg] } }) := by
  refine ⟨fun h => ?_, fun w hw hne => ?_, fun w hw hyes => ?_⟩
  · simp [WebSocketManager.sendSignaling, h]
  · simp [WebSocketManager.sendSignaling, hw, hne]
  · simp [WebSocketManager.sendSignaling, hw, hyes]

/-- C8, witnessed: the join envelope is dropped with no state change on the
closed socket and appended to the transmitted frames on the open one. -/
theorem C8_send_drop_or_transmit_witness :
    mgrWsClosed.sendSignaling msgJoin = mgrWsClosed ∧
    mgrWsOpen.sendSignaling msgJoin =
      { mgrWsOpen with signalingWs := some { sigOpen with sent := sigOpen.sent ++ [msgJoin] } } :=
  ⟨(C8_send_drop_or_transmit mgrWsClosed msgJoin).2.1 sigClosed rfl (by decide),
   (C8_send_drop_or_transmit mgrWsOpen msgJoin).2.2 sigOpen rfl rfl⟩

/-- Receipt order is preserved: folding handleCaption over a list of events
appends them to the captions list in order. -/
theorem foldl_handleCaption_captions (cs : List CaptionMessage)
    (s : VideoCallState) :
    (cs.foldl handleCaption s).captions = s.captions ++ cs := by
  induction cs generalizing s with
  | nil => simp
  | cons c cs ih => simp [List.foldl, handleCaption, ih]

/-- C9: recorded caption events are kept in receipt order, and the two
overlay filters partition them by speaker preserving each speaker's
relative order: for events You, Remote, You the You transcript is exactly
the two You events in order and the Remote transcript exactly the one
Remote event. -/
theorem C9_partition (s0 : VideoCallState) (e1 e2 e3 : CaptionMessage)
    (cs : List CaptionMessage)
    (h0 : s0.captions = []) (h1 : e1.speaker = "You")
    (h2 : e2.speaker = "Remote") (h3 : e3.speaker = "You") :
    (cs.foldl handleCaption s0).captions = cs ∧
    youCaptions (handleCaption (handleCaption (handleCaption s0 e1) e2) e3) = [e1, e3] ∧
    remoteCaptions (handleCaption (handleCaption (handleCaption s0 e1) e2) e3) = [e2] := by
  refine ⟨by simp [foldl_handleCaption_captions, h0], ?_, ?_⟩ <;>
    simp [youCaptions, remoteCaptions, handleCaption, h0, h1, h2, h3,
          List.filter]

/-- Caption event fixtures for the C9 witness. -/
def capYou1 : CaptionMessage :=
  { speaker := "You", text := "a", translation := "a", timestamp := 1, language := "en" }

/-- Second fixture: the remote speaker. -/
def capRemote : CaptionMessage :=
  { speaker := "Remote", text := "b", translation := "b", timestamp := 2, language := "en" }

/-- Third fixture: the local speaker again. -/
def capYou2 : CaptionMessage :=
  { speaker := "You", text := "c", translation := "c", timestamp := 3, language := "en" }

/-- A controller state with an empty transcript. -/
def emptyCallState : VideoCallState := { roomId := "room-1" }

/-- C9, witnessed on the three fixture events. -/
theorem C9_partition_witness :
    (([capYou1, capRemote, capYou2].foldl handleCaption emptyCallState).captions =
      [capYou1, capRemote, capYou2]) ∧
    youCaptions (handleCaption (handleCaption (handleCaption emptyCallState capYou1) capRemote) capYou2) =
      [capYou1, capYou2] ∧
    remoteCaptions (handleCaption (handleCaption (handleCaption emptyCallState capYou1) capRemote) capYou2) =
      [capRemote] :=
  C9_partition emptyCallState capYou1 capRemote capYou2
    [capYou1, capRemote, capYou2] rfl rfl rfl rfl

/-- C10: each negotiation operation succeeds exactly when the peer
connection handle is non-null; when it is null every one of them throws the
error Peer connection not initialized, and a caller catching it still holds
the manager completely unchanged (the throw precedes every mutation). -/
theorem C10_not_initialized_iff (m : WebRTCManager) (c d : Blob) :
    exOk m.createOffer = m.peerConnection.isSome ∧
    exOk m.createAnswer = m.peerConnection.isSome ∧
    exOk (m.setRemoteDescription d) = m.peerConnection.isSome ∧
    exOk (m.addIceCandidate c) = m.peerConnection.isSome ∧
    (m.peerConnection = none →
      attemptVal m m.createOffer = (m, some "Peer connection not initialized") ∧
      attemptVal m m.createAnswer = (m, some "Peer connection not initialized") ∧
      attemptMut m (m.setRemoteDescription d) = (m, some "Peer connection not initialized") ∧
      attemptMut m (m.addIceCandidate c) = (m, some "Peer connection not initialized")) := by
  rcases m with ⟨pc, ls⟩
  cases pc <;>
    simp [WebRTCManager.createOffer, WebRTCManager.createAnswer,
          WebRTCManager.setRemoteDescription, WebRTCManager.addIceCandidate,
          exOk, attemptVal, attemptMut]

/-- C10, witnessed on the manager with a null handle. -/
theorem C10_not_initialized_iff_witness :
    attemptVal mgrNone mgrNone.createOffer = (mgrNone, some "Peer connection not initialized") ∧
    attemptVal mgrNone mgrNone.createAnswer = (mgrNone, some "Peer connection not initialized") ∧
    attemptMut mgrNone (mgrNone.setRemoteDescription 2) = (mgrNone, some "Peer connection not initialized") ∧
    attemptMut mgrNone (mgrNone.addIceCandidate 1) = (mgrNone, some "Peer connection not initialized") :=
  (C10_not_initialized_iff mgrNone 1 2).2.2.2.2 rfl
